import Mathlib

set_option maxRecDepth 10000

/-!
Shallow embedding of the Detection & Adaptive Calibration Engine of the
multi-layer plagiarism-detection backend (`src/backend/app/core/`), together
with theorems settling the specification claims.

Conventions of the embedding:
* Python floats are modelled as exact rationals (`ℚ`); `round(x, n)` is
  modelled by `pyRound` (round half to even, as Python does).
* The SQLAlchemy tables are modelled as in-memory lists of records; the
  feedback table is the list `List Feedback`, the singleton `layer_weights`
  row is an `Option LayerWeights` (absent when the row was never created).
* The sentence-transformer embedder, the language classifier and the
  stylometric analyzer are external collaborators (spec §1, §6); they are
  passed in as opaque function parameters (`encode`, `cosSim`, `detectLang`).
  The stylometry record attached to results is not inspected by any claim
  and is omitted from the result structures.
-/

/-- Python `round(x, ndigits)`: round half to even at the last kept digit.
Helper for the inner integer rounding. -/
def roundHalfEven (q : ℚ) : ℤ :=
  let f := ⌊q⌋
  let r := q - (f : ℚ)
  if r < 1/2 then f
  else if (1:ℚ)/2 < r then f + 1
  else if f % 2 = 0 then f else f + 1

/-- Python `round(q, n)` on exact rationals. -/
def pyRound (q : ℚ) (n : ℕ) : ℚ :=
  (roundHalfEven (q * 10 ^ n) : ℚ) / 10 ^ n

/-- Python `int(x)` on a float: truncation toward zero. -/
def pyInt (q : ℚ) : ℤ :=
  if 0 ≤ q then ⌊q⌋ else ⌈q⌉

/-- Python `x or d` for an optional string column (`None` and `""` are falsy):
used by `detect_cross_user` for `doc.language_code or "unknown"`. -/
def orDefault (o : Option String) (d : String) : String :=
  match o with
  | some s => if s = "" then d else s
  | none => d

/-- Result of `detect_language` (`language_utils.detect_language`): a code and
a display name. The classifier itself is an external collaborator. -/
structure LangInfo where
  code : String
  name : String
deriving DecidableEq, Repr

/-- One entry of the detector's in-memory reference cache
(`detector.py`: `self.documents[i]` together with the aligned row `i` of
`self.embeddings`; the 1:1 alignment of the two lists is made intrinsic by
storing the embedding in the entry). `E` is the opaque embedding-vector type. -/
structure RefEntry (E : Type) where
  id : String
  text : String
  language : LangInfo
  embedding : E
deriving Repr

/-- A corpus-mode match record emitted by `PlagiarismDetector.detect`
(`detector.py` lines 218-224). -/
structure MatchRecord where
  doc_id : String
  score : ℚ
  snippet : String
  language : LangInfo
  is_cross_language : Bool
deriving DecidableEq, Repr

/-- Result of `PlagiarismDetector.detect`. The `cross_language_matches` key is
present only on the non-empty-store branch of the source, hence an `Option`.
The stylometry record (external annotator output) is omitted. -/
structure DetectionResult where
  max_score : ℚ
  «matches» : List MatchRecord
  query_language : LangInfo
  cross_language_enabled : Bool
  cross_language_matches : Option ℕ
deriving Repr

/-- Descending stable sort by score, modelling Python's
`results.sort(key=lambda x: x['score'], reverse=True)`. -/
def sortByScoreDesc (l : List MatchRecord) : List MatchRecord :=
  l.insertionSort (fun a b => b.score ≤ a.score)

/-- The match record built for reference entry `d` at similarity `scoreVal`
(`detector.py` lines 218-224; the snippet is always `text[:200] + "..."`). -/
def mkMatchRecord {E : Type} (queryLanguage : LangInfo) (d : RefEntry E)
    (scoreVal : ℚ) : MatchRecord :=
  { doc_id := d.id
    score := pyRound (scoreVal * 100) 2
    snippet := d.text.take 200 ++ "..."
    language := d.language
    is_cross_language := d.language.code != queryLanguage.code }

/-- `PlagiarismDetector.detect` (`detector.py` lines 179-241).
`cosSim` and `encode` stand for `util.cos_sim` and `self.model.encode`
(external embedder); `detectLang` for the external language classifier;
`store` for the hydrated in-memory cache. Candidates are kept when their
similarity is strictly greater than `threshold`, scores are scaled to 0-100
and rounded to 2 decimals, matches are sorted by score descending. -/
def detect {E : Type} (cosSim : E → E → ℚ) (encode : String → E)
    (detectLang : String → LangInfo) (store : List (RefEntry E))
    (text : String) (threshold : ℚ) : DetectionResult :=
  let query_language := detectLang text
  if store.isEmpty then
    { max_score := 0
      «matches» := []
      query_language := query_language
      cross_language_enabled := true
      cross_language_matches := none }
  else
    let queryEmbedding := encode text
    let above := store.filter (fun d => threshold < cosSim queryEmbedding d.embedding)
    let results := above.map (fun d =>
      mkMatchRecord query_language d (cosSim queryEmbedding d.embedding))
    let crossCount := (results.filter (fun m => m.is_cross_language)).length
    let sorted := sortByScoreDesc results
    let max_score := match sorted with
      | [] => 0
      | m :: _ => m.score
    { max_score := max_score
      «matches» := sorted
      query_language := query_language
      cross_language_enabled := true
      cross_language_matches := some crossCount }

/-- The singleton `layer_weights` row (`models.py` class `LayerWeights`):
the Calibration Store of the spec. Column defaults: semantic 0.5,
stylometry 0.3, cross_lang 0.2, base_threshold 40.0, adjustment 0.0. -/
structure LayerWeights where
  semantic_weight : ℚ
  stylometry_weight : ℚ
  cross_lang_weight : ℚ
  base_threshold : ℚ
  threshold_adjustment : ℚ
  total_feedback_processed : ℕ
deriving DecidableEq, Repr

/-- The default calibration row created by
`AdaptiveEngine.get_or_create_weights` (`adaptive_engine.py` lines 38-46). -/
def defaultWeights : LayerWeights :=
  { semantic_weight := 1/2
    stylometry_weight := 3/10
    cross_lang_weight := 1/5
    base_threshold := 40
    threshold_adjustment := 0
    total_feedback_processed := 0 }

/-- The `/detect` endpoint of `main.py` (line 95): it calls
`detector.detect(submission.text)` with no threshold argument, so the
source's default `threshold = 0.4` is always used. The calibration row
(`calib`) held by the running process is in scope but is not read by the
handler or by `detect`. -/
def detectEndpoint {E : Type} (cosSim : E → E → ℚ) (encode : String → E)
    (detectLang : String → LangInfo) (calib : Option LayerWeights)
    (store : List (RefEntry E)) (text : String) : DetectionResult :=
  detect cosSim encode detectLang store text (2/5)

/-- A row of the `users` table (`models.py` class `User`): an autoincrement
integer primary key and a unique email. -/
structure PyUser where
  id : ℤ
  email : String
deriving DecidableEq, Repr

/-- A row of the `user_documents` table (`models.py` class `UserDocument`).
The embedding column is nullable; `language_code` is nullable. The owning
user is resolved through `user_id` against the `users` table. -/
structure UserDocument (E : Type) where
  user_id : ℤ
  doc_id : String
  text : String
  embedding : Option E
  language_code : Option String
deriving Repr

/-- A cross-user match record (`detector.py` lines 348-355). -/
structure CrossUserMatch where
  doc_id : String
  score : ℚ
  snippet : String
  owner_email : String
  language : LangInfo
  is_cross_language : Bool
deriving DecidableEq, Repr

/-- Result of `PlagiarismDetector.detect_cross_user`. The
`cross_language_enabled` and `cross_language_matches` keys are present only
on the non-empty branch of the source, hence `Option`s. -/
structure CrossUserResult where
  max_score : ℚ
  «matches» : List CrossUserMatch
  query_language : LangInfo
  total_documents_checked : ℕ
  cross_user_detection : Bool
  cross_language_enabled : Option Bool
  cross_language_matches : Option ℕ
deriving Repr

/-- Descending stable sort of cross-user matches by score. -/
def sortCrossByScoreDesc (l : List CrossUserMatch) : List CrossUserMatch :=
  l.insertionSort (fun a b => b.score ≤ a.score)

/-- Similarity of the query against one stored user document
(`detector.py` lines 330-339): the stored embedding is used when present and
regenerated from the text when the column is null. -/
def userDocScore {E : Type} (cosSim : E → E → ℚ) (encode : String → E)
    (queryEmbedding : E) (d : UserDocument E) : ℚ :=
  match d.embedding with
  | some e => cosSim queryEmbedding e
  | none => cosSim queryEmbedding (encode d.text)

/-- The cross-user match record built for document `d`
(`detector.py` lines 341-355): the snippet appends an ellipsis only when the
text is longer than 200 characters; the owner email falls back to
`"Unknown"` when the `user_id` resolves to no user. -/
def mkCrossUserMatch (users : List PyUser) (queryLanguage : LangInfo)
    {E : Type} (d : UserDocument E) (scoreVal : ℚ) : CrossUserMatch :=
  let doc_language : LangInfo :=
    { code := orDefault d.language_code "unknown"
      name := orDefault d.language_code "Unknown" }
  { doc_id := d.doc_id
    score := pyRound (scoreVal * 100) 2
    snippet := if 200 < d.text.length then d.text.take 200 ++ "..." else d.text
    owner_email := match users.find? (fun u => u.id == d.user_id) with
      | some u => u.email
      | none => "Unknown"
    language := doc_language
    is_cross_language := doc_language.code != queryLanguage.code }

/-- `PlagiarismDetector.detect_cross_user` (`detector.py` lines 294-376):
resolve the excluded user's id (`-1` when the email matches no user), scan
every user document whose `user_id` differs from it, filter by strict
threshold, sort by score descending, and report the number of documents
actually compared. -/
def detectCrossUser {E : Type} (cosSim : E → E → ℚ) (encode : String → E)
    (detectLang : String → LangInfo) (users : List PyUser)
    (userDocs : List (UserDocument E)) (text : String)
    (excludeEmail : String) (threshold : ℚ) : CrossUserResult :=
  let query_language := detectLang text
  let excludeId : ℤ := match users.find? (fun u => u.email == excludeEmail) with
    | some u => u.id
    | none => -1
  let otherDocs := userDocs.filter (fun d => d.user_id != excludeId)
  if otherDocs.isEmpty then
    { max_score := 0
      «matches» := []
      query_language := query_language
      total_documents_checked := 0
      cross_user_detection := true
      cross_language_enabled := none
      cross_language_matches := none }
  else
    let queryEmbedding := encode text
    let above := otherDocs.filter
      (fun d => threshold < userDocScore cosSim encode queryEmbedding d)
    let results := above.map (fun d =>
      mkCrossUserMatch users query_language d
        (userDocScore cosSim encode queryEmbedding d))
    let crossCount := (results.filter (fun m => m.is_cross_language)).length
    let sorted := sortCrossByScoreDesc results
    let max_score := match sorted with
      | [] => 0
      | m :: _ => m.score
    { max_score := max_score
      «matches» := sorted
      query_language := query_language
      total_documents_checked := otherDocs.length
      cross_user_detection := true
      cross_language_enabled := some true
      cross_language_matches := some crossCount }

/-- A row of the `feedback` table (`models.py` class `Feedback`). Column
defaults: severity 50, detection_layer NULL, confidence_override NULL,
notes NULL, is_instructor_review false. -/
structure Feedback where
  id : ℕ
  user_id : Option ℤ
  doc_id : String
  submitted_text_hash : String
  match_score : ℤ
  feedback_type : String
  severity : ℤ
  detection_layer : Option String
  confidence_override : Option ℤ
  notes : Option String
  is_instructor_review : Bool
deriving DecidableEq, Repr

/-- In-memory state of `FeedbackManager` plus the feedback table it appends
to: `_threshold_adjustment` is the manager's instance attribute
(`feedback_manager.py` line 15); `ledger` is the `feedback` table. -/
structure FMState where
  threshold_adjustment : ℚ
  ledger : List Feedback
deriving Repr

/-- Return value of `FeedbackManager.submit_feedback`
(`feedback_manager.py` lines 76-81). -/
structure FeedbackResult where
  id : ℕ
  status : String
  feedback_type : String
  threshold_adjustment : ℚ
deriving DecidableEq, Repr

/-- `FeedbackManager._update_threshold_adjustment`
(`feedback_manager.py` lines 85-118): below 10 entries the adjustment is
reset to 0, otherwise it is `(fp_rate - 0.5) * 20` clamped to `[-10, 10]`. -/
def updateThresholdAdjustment (ledger : List Feedback) : ℚ :=
  let total := ledger.length
  if total < 10 then 0
  else
    let false_positives :=
      (ledger.filter (fun f => f.feedback_type == "false_positive")).length
    let fp_rate : ℚ := (false_positives : ℚ) / (total : ℚ)
    max (-10) (min 10 ((fp_rate - 1/2) * 20))

/-- The feedback row created by `submit_feedback`
(`feedback_manager.py` lines 62-68): only user_id, doc_id, text hash,
truncated match score and feedback_type are supplied; every other column
takes its model default. The id models the autoincrement primary key. -/
def mkFeedback (nextId : ℕ) (user_id : Option ℤ) (doc_id : String)
    (textHash : String) (match_score : ℚ) (feedback_type : String) : Feedback :=
  { id := nextId
    user_id := user_id
    doc_id := doc_id
    submitted_text_hash := textHash
    match_score := pyInt match_score
    feedback_type := feedback_type
    severity := 50
    detection_layer := none
    confidence_override := none
    notes := none
    is_instructor_review := false }

/-- `FeedbackManager.submit_feedback` (`feedback_manager.py` lines 26-83).
`sha256` stands for `hashlib.sha256(...).hexdigest()` (opaque digest).
An invalid `feedback_type` raises `ValueError` before any state is touched
(modelled by returning the state unchanged next to the error); a valid one
appends exactly one row and synchronously recomputes the manager's
threshold adjustment. -/
def submitFeedback (sha256 : String → String) (users : List PyUser)
    (st : FMState) (doc_id : String) (submitted_text : String)
    (match_score : ℚ) (feedback_type : String) (username : Option String) :
    FMState × Except String FeedbackResult :=
  if feedback_type ≠ "false_positive" ∧ feedback_type ≠ "confirmed" then
    (st, .error "feedback_type must be 'false_positive' or 'confirmed'")
  else
    let user_id : Option ℤ := match username with
      | none => none
      | some name => match users.find? (fun u => u.email == name) with
        | some u => some u.id
        | none => none
    let fb := mkFeedback (st.ledger.length + 1) user_id doc_id
      (sha256 submitted_text) match_score feedback_type
    let ledger' := st.ledger ++ [fb]
    let adj := updateThresholdAdjustment ledger'
    (⟨adj, ledger'⟩,
     .ok { id := fb.id
           status := "success"
           feedback_type := feedback_type
           threshold_adjustment := adj })

/-- Count of feedback rows of type `ty` whose `match_score` lies in
`[low, high)` (`adaptive_engine.py` lines 79-89). -/
def countInRange (ledger : List Feedback) (ty : String) (low high : ℕ) : ℕ :=
  (ledger.filter (fun f =>
    f.feedback_type == ty
      && decide ((low : ℤ) ≤ f.match_score)
      && decide (f.match_score < (high : ℤ)))).length

/-- Count of feedback rows of a given type over the whole ledger
(`adaptive_engine.py` lines 109-111). -/
def countType (ledger : List Feedback) (ty : String) : ℕ :=
  (ledger.filter (fun f => f.feedback_type == ty)).length

/-- The score ranges analysed by `calculate_adaptive_threshold`
(`adaptive_engine.py` line 75). -/
def scoreRanges : List (ℕ × ℕ) := [(0, 30), (30, 50), (50, 70), (70, 100)]

/-- One entry of `range_stats` (`adaptive_engine.py` lines 94-99):
`fp_rate` holds `round(fp_rate * 100, 1)` as in the source. -/
structure RangeStat where
  low : ℕ
  high : ℕ
  false_positives : ℕ
  confirmed : ℕ
  fp_rate : ℚ
deriving DecidableEq, Repr

/-- The per-bucket statistics list (`adaptive_engine.py` lines 76-99). -/
def rangeStats (ledger : List Feedback) : List RangeStat :=
  scoreRanges.map (fun r =>
    let fp := countInRange ledger "false_positive" r.1 r.2
    let confirmed := countInRange ledger "confirmed" r.1 r.2
    let total_range := fp + confirmed
    let fp_rate : ℚ := if 0 < total_range then (fp : ℚ) / (total_range : ℚ) else 0
    { low := r.1
      high := r.2
      false_positives := fp
      confirmed := confirmed
      fp_rate := pyRound (fp_rate * 100) 1 })

/-- The `optimal_threshold` local of `calculate_adaptive_threshold`
(`adaptive_engine.py` lines 101-106): the lower bound of the first bucket
(in ascending score order) whose rounded fp-rate is below 30 and that has at
least one confirmed entry, defaulting to 40.0. The source computes this
value but drops it: it appears nowhere in the returned analytics. -/
def optimalThreshold (stats : List RangeStat) : ℚ :=
  match stats.find? (fun s => decide (s.fp_rate < 30) && decide (0 < s.confirmed)) with
  | some s => (s.low : ℚ)
  | none => 40

/-- The analytics dictionary returned by `calculate_adaptive_threshold`:
one shape per branch (`adaptive_engine.py` lines 72 and 128-135). The
learning branch carries no `optimal_threshold` key. -/
inductive ThresholdAnalytics where
  | notLearning (feedback_needed : ℤ)
  | learning (total_feedback : ℕ) (global_fp_rate : ℚ)
      (threshold_adjustment : ℚ) (effective_threshold : ℚ)
      (score_range_analysis : List RangeStat)
deriving DecidableEq, Repr

/-- The `score_range_analysis` entry of the analytics, when present. -/
def ThresholdAnalytics.rangeAnalysis : ThresholdAnalytics → Option (List RangeStat)
  | .notLearning _ => none
  | .learning _ _ _ _ stats => some stats

/-- The `learning_active` entry of the analytics. -/
def ThresholdAnalytics.learningActive : ThresholdAnalytics → Bool
  | .notLearning _ => false
  | .learning _ _ _ _ _ => true

/-- `AdaptiveEngine.calculate_adaptive_threshold`
(`adaptive_engine.py` lines 54-137). `weights` is the singleton
`layer_weights` row (absent when never created). Returns the effective
threshold, the analytics dictionary and the row as persisted. Below 10
feedback entries the unmodified base threshold is returned and nothing is
written; otherwise the clamped global adjustment and the total count are
written to the row (when it exists) and
`effective_threshold = base + adjustment`. -/
def calculateAdaptiveThreshold (ledger : List Feedback)
    (weights : Option LayerWeights) :
    ℚ × ThresholdAnalytics × Option LayerWeights :=
  let total := ledger.length
  if total < 10 then
    let base : ℚ := match weights with
      | some w => w.base_threshold
      | none => 40
    (base, .notLearning (10 - (total : ℤ)), weights)
  else
    let stats := rangeStats ledger
    let total_fp := countType ledger "false_positive"
    let global_fp_rate : ℚ :=
      if 0 < total then (total_fp : ℚ) / (total : ℚ) else 0
    let adjustment := max (-15) (min 15 ((global_fp_rate - 3/10) * 20))
    let weights' := match weights with
      | some w => some { w with
          threshold_adjustment := adjustment
          total_feedback_processed := total }
      | none => none
    let base : ℚ := match weights with
      | some w => w.base_threshold
      | none => 40
    let effective_threshold := base + adjustment
    (effective_threshold,
     .learning total (pyRound (global_fp_rate * 100) 1)
       (pyRound adjustment 1) (pyRound effective_threshold 1) stats,
     weights')

/-- One entry of `layer_stats` (`adaptive_engine.py` lines 152-173):
`accuracy` holds `round(accuracy * 100, 1)` as in the source. -/
structure LayerStat where
  false_positives : ℕ
  confirmed : ℕ
  total : ℕ
  accuracy : ℚ
deriving DecidableEq, Repr

/-- Count of feedback rows of type `ty` tagged to `layer`
(`adaptive_engine.py` lines 155-163). -/
def countLayerType (ledger : List Feedback) (ty layer : String) : ℕ :=
  (ledger.filter (fun f =>
    f.feedback_type == ty && f.detection_layer == some layer)).length

/-- The per-layer statistics record (`adaptive_engine.py` lines 154-173). -/
def layerStat (ledger : List Feedback) (layer : String) : LayerStat :=
  let fp := countLayerType ledger "false_positive" layer
  let confirmed := countLayerType ledger "confirmed" layer
  let total := fp + confirmed
  let accuracy : ℚ := if 0 < total then (confirmed : ℚ) / (total : ℚ) else 1/2
  { false_positives := fp
    confirmed := confirmed
    total := total
    accuracy := pyRound (accuracy * 100) 1 }

/-- Clamp a provisional weight to `[0.1, 0.8]`
(`adaptive_engine.py` line 193). -/
def clampWeight (x : ℚ) : ℚ := max (1/10) (min (4/5) x)

/-- Return value of `rebalance_layer_weights`
(`adaptive_engine.py` lines 210-219): reported new weights are rounded to
3 decimals; `current_weights` is the row after the write. -/
structure RebalanceResult where
  status : String
  layer_statistics : List (String × LayerStat)
  new_semantic : ℚ
  new_stylometry : ℚ
  new_cross_lang : ℚ
  current_weights : Option LayerWeights
deriving Repr

/-- `AdaptiveEngine.rebalance_layer_weights`
(`adaptive_engine.py` lines 139-221). Per-layer accuracies (quantized to
0.1 percent as the source stores them) are normalized into provisional
weights, clamped to `[0.1, 0.8]`, then re-normalized by the clamped sum;
the three final values are written to the row when it exists. Returns the
result dictionary and the row as persisted. -/
def rebalanceLayerWeights (ledger : List Feedback)
    (weights : Option LayerWeights) : RebalanceResult × Option LayerWeights :=
  let layers := ["semantic", "stylometry", "cross_lang", "paraphrase"]
  let stats := layers.map (fun l => (l, layerStat ledger l))
  let accSemantic := (layerStat ledger "semantic").accuracy / 100
  let accStylometry := (layerStat ledger "stylometry").accuracy / 100
  let accCrossLang := (layerStat ledger "cross_lang").accuracy / 100
  let sumAcc := accSemantic + accStylometry + accCrossLang
  let total_accuracy := if sumAcc = 0 then 1 else sumAcc
  let cSemantic := clampWeight (accSemantic / total_accuracy)
  let cStylometry := clampWeight (accStylometry / total_accuracy)
  let cCrossLang := clampWeight (accCrossLang / total_accuracy)
  let total_weight := cSemantic + cStylometry + cCrossLang
  let nSemantic := cSemantic / total_weight
  let nStylometry := cStylometry / total_weight
  let nCrossLang := cCrossLang / total_weight
  let weights' := match weights with
    | some w => some { w with
        semantic_weight := nSemantic
        stylometry_weight := nStylometry
        cross_lang_weight := nCrossLang }
    | none => none
  ({ status := "success"
     layer_statistics := stats
     new_semantic := pyRound nSemantic 3
     new_stylometry := pyRound nStylometry 3
     new_cross_lang := pyRound nCrossLang 3
     current_weights := weights' },
   weights')

/-- `AdaptiveEngine.trigger_retrain` (`adaptive_engine.py` lines 273-289):
threshold calibration followed by weight rebalancing, threading the
persisted calibration row between the two. -/
def triggerRetrain (ledger : List Feedback) (weights : Option LayerWeights) :
    (ℚ × ThresholdAnalytics × RebalanceResult) × Option LayerWeights :=
  let t := calculateAdaptiveThreshold ledger weights
  let r := rebalanceLayerWeights ledger t.2.2
  ((t.1, t.2.1, r.1), r.2)

def enLang : LangInfo := { code := "en", name := "English" }

def refShort : RefEntry ℕ := { id := "doc1", text := "short text", language := enLang, embedding := 0 }

def halfSim : ℕ → ℕ → ℚ := fun _ _ => 1/2

def zeroEnc : String → ℕ := fun _ => 0

def enDetect : String → LangInfo := fun _ => enLang

def fpSemEntry (i : ℕ) : Feedback :=
  { id := i
    user_id := none
    doc_id := "doc1"
    submitted_text_hash := "hash"
    match_score := 80
    feedback_type := "false_positive"
    severity := 50
    detection_layer := some "semantic"
    confidence_override := none
    notes := none
    is_instructor_review := false }

def fpSemLedger : List Feedback :=
  [fpSemEntry 1, fpSemEntry 2, fpSemEntry 3, fpSemEntry 4, fpSemEntry 5,
   fpSemEntry 6, fpSemEntry 7, fpSemEntry 8, fpSemEntry 9, fpSemEntry 10]

def userA : PyUser := { id := 1, email := "a@example.com" }

def userDocA : UserDocument ℕ :=
  { user_id := 1, doc_id := "d1", text := "stored text", embedding := none,
    language_code := none }

def mShort : MatchRecord :=
  { doc_id := "doc1", score := 50, snippet := "short text...",
    language := enLang, is_cross_language := false }

/-- Spec-worded snippet (for comparison with the code): first 200 characters
with an ellipsis appended only if the text was truncated. -/
def snippetSpec (t : String) : String :=
  if 200 < t.length then t.take 200 ++ "..." else t

def calibHigh : LayerWeights :=
  { defaultWeights with threshold_adjustment := 15 }

def confEntry (i : ℕ) (s : ℤ) : Feedback :=
  { id := i
    user_id := none
    doc_id := "doc1"
    submitted_text_hash := "hash"
    match_score := s
    feedback_type := "confirmed"
    severity := 50
    detection_layer := none
    confidence_override := none
    notes := none
    is_instructor_review := false }

def conf100Ledger : List Feedback :=
  [confEntry 1 50, confEntry 2 50, confEntry 3 50, confEntry 4 50,
   confEntry 5 50, confEntry 6 50, confEntry 7 50, confEntry 8 50,
   confEntry 9 50, confEntry 10 100]

lemma mem_sortByScoreDesc (l : List MatchRecord) (m : MatchRecord) :
    m ∈ sortByScoreDesc l ↔ m ∈ l :=
  (List.perm_insertionSort _ l).mem_iff

lemma mem_detect_matches {E : Type} (cosSim : E → E → ℚ) (encode : String → E)
    (detectLang : String → LangInfo) (store : List (RefEntry E))
    (text : String) (threshold : ℚ) (m : MatchRecord) :
    m ∈ (detect cosSim encode detectLang store text threshold).«matches» ↔
      ∃ d, d ∈ store ∧ threshold < cosSim (encode text) d.embedding ∧
        m = mkMatchRecord (detectLang text) d (cosSim (encode text) d.embedding) := by
  unfold detect
  by_cases h : store.isEmpty
  · have : store = [] := List.isEmpty_iff.mp h
    subst this
    simp
  · simp only [h, Bool.false_eq_true, if_false, mem_sortByScoreDesc,
      List.mem_map, List.mem_filter, decide_eq_true_eq]
    constructor
    · rintro ⟨d, ⟨hd, hthr⟩, rfl⟩
      exact ⟨d, hd, hthr, rfl⟩
    · rintro ⟨d, hd, hthr, rfl⟩
      exact ⟨d, ⟨hd, hthr⟩, rfl⟩

lemma mem_sortCrossByScoreDesc (l : List CrossUserMatch) (m : CrossUserMatch) :
    m ∈ sortCrossByScoreDesc l ↔ m ∈ l :=
  (List.perm_insertionSort _ l).mem_iff

lemma mem_detectCrossUser_matches {E : Type} (cosSim : E → E → ℚ)
    (encode : String → E) (detectLang : String → LangInfo)
    (users : List PyUser) (userDocs : List (UserDocument E))
    (text excludeEmail : String) (threshold : ℚ) (m : CrossUserMatch) :
    m ∈ (detectCrossUser cosSim encode detectLang users userDocs text
        excludeEmail threshold).«matches» ↔
      ∃ d, d ∈ userDocs.filter (fun d =>
            d.user_id != (match users.find? (fun u => u.email == excludeEmail) with
              | some u => u.id
              | none => -1)) ∧
        threshold < userDocScore cosSim encode (encode text) d ∧
        m = mkCrossUserMatch users (detectLang text) d
          (userDocScore cosSim encode (encode text) d) := by
  unfold detectCrossUser
  by_cases h : (userDocs.filter (fun d =>
      d.user_id != (match users.find? (fun u => u.email == excludeEmail) with
        | some u => u.id
        | none => -1))).isEmpty
  · rw [if_pos h]
    have he := List.isEmpty_iff.mp h
    simp [he]
  · rw [if_neg (by simpa using h)]
    simp only [mem_sortCrossByScoreDesc, List.mem_map, List.mem_filter,
      decide_eq_true_eq]
    constructor
    · rintro ⟨d, ⟨⟨hd, hb⟩, hthr⟩, rfl⟩
      exact ⟨d, ⟨hd, hb⟩, hthr, rfl⟩
    · rintro ⟨d, ⟨hd, hb⟩, hthr, rfl⟩
      exact ⟨d, ⟨⟨hd, hb⟩, hthr⟩, rfl⟩

/-- C8: for every fixed corpus and query text and every pair of thresholds
t1 < t2, the set of doc_ids returned by `detect` at threshold t2 is a subset
of the set returned at threshold t1 (monotonicity of filtering). -/
theorem detect_threshold_monotone {E : Type} (cosSim : E → E → ℚ)
    (encode : String → E) (detectLang : String → LangInfo)
    (store : List (RefEntry E)) (text : String) (t1 t2 : ℚ) (h : t1 < t2) :
    ∀ i, i ∈ ((detect cosSim encode detectLang store text t2).«matches».map
        MatchRecord.doc_id) →
      i ∈ ((detect cosSim encode detectLang store text t1).«matches».map
        MatchRecord.doc_id) := by
  intro i hi
  rcases List.mem_map.mp hi with ⟨m, hm, rfl⟩
  rcases (mem_detect_matches cosSim encode detectLang store text t2 m).mp hm with
    ⟨d, hd, hthr, rfl⟩
  exact List.mem_map.mpr ⟨_,
    (mem_detect_matches cosSim encode detectLang store text t1 _).mpr
      ⟨d, hd, lt_trans h hthr, rfl⟩, rfl⟩

/-- C8 witness: the monotonicity theorem instantiated at a concrete
one-document corpus and thresholds 0.4 < 0.45. -/
theorem detect_threshold_monotone_witness :
    (2:ℚ)/5 < 9/20 ∧
    ∀ i, i ∈ ((detect halfSim zeroEnc enDetect [refShort] "q" (9/20)).«matches».map
        MatchRecord.doc_id) →
      i ∈ ((detect halfSim zeroEnc enDetect [refShort] "q" (2/5)).«matches».map
        MatchRecord.doc_id) :=
  ⟨by norm_num,
   detect_threshold_monotone halfSim zeroEnc enDetect [refShort] "q" (2/5) (9/20)
     (by norm_num)⟩

lemma clampWeight_le (x : ℚ) : clampWeight x ≤ 4/5 := by
  unfold clampWeight
  exact max_le (by norm_num) (min_le_left _ _)

lemma le_clampWeight (x : ℚ) : 1/10 ≤ clampWeight x := le_max_left _ _

lemma normalized_triple_bounds (a b c : ℚ)
    (ha1 : 1/10 ≤ a) (ha2 : a ≤ 4/5)
    (hb1 : 1/10 ≤ b) (hb2 : b ≤ 4/5)
    (hc1 : 1/10 ≤ c) (hc2 : c ≤ 4/5) :
    a / (a + b + c) + b / (a + b + c) + c / (a + b + c) = 1 ∧
    (1/17 ≤ a / (a + b + c) ∧ a / (a + b + c) ≤ 4/5) ∧
    (1/17 ≤ b / (a + b + c) ∧ b / (a + b + c) ≤ 4/5) ∧
    (1/17 ≤ c / (a + b + c) ∧ c / (a + b + c) ≤ 4/5) := by
  have hS : (0:ℚ) < a + b + c := by linarith
  refine ⟨by field_simp, ⟨?_, ?_⟩, ⟨?_, ?_⟩, ⟨?_, ?_⟩⟩ <;>
    first
      | (rw [le_div_iff₀ hS]; linarith)
      | (rw [div_le_iff₀ hS]; linarith)

/-- C2 (amended): after every call to `rebalance_layer_weights`, whatever
the ledger, the three persisted weights sum exactly to 1; each individual
weight lies in [1/17, 0.8]. The claimed per-weight interval [0.10, 0.80]
holds for the clamped values before the final re-normalization, but the
re-normalization divides by the clamped sum (up to 1.7), which can push a
floored weight below 0.10. -/
theorem rebalance_weight_invariant (ledger : List Feedback) (w : LayerWeights) :
    ∃ w', (rebalanceLayerWeights ledger (some w)).2 = some w' ∧
      w'.semantic_weight + w'.stylometry_weight + w'.cross_lang_weight = 1 ∧
      1/17 ≤ w'.semantic_weight ∧ w'.semantic_weight ≤ 4/5 ∧
      1/17 ≤ w'.stylometry_weight ∧ w'.stylometry_weight ≤ 4/5 ∧
      1/17 ≤ w'.cross_lang_weight ∧ w'.cross_lang_weight ≤ 4/5 := by
  obtain ⟨hsum, ⟨h1, h2⟩, ⟨h3, h4⟩, ⟨h5, h6⟩⟩ :=
    normalized_triple_bounds _ _ _
      (le_clampWeight ((layerStat ledger "semantic").accuracy / 100 /
        (if (layerStat ledger "semantic").accuracy / 100 +
            (layerStat ledger "stylometry").accuracy / 100 +
            (layerStat ledger "cross_lang").accuracy / 100 = 0 then 1
         else (layerStat ledger "semantic").accuracy / 100 +
            (layerStat ledger "stylometry").accuracy / 100 +
            (layerStat ledger "cross_lang").accuracy / 100)))
      (clampWeight_le _)
      (le_clampWeight ((layerStat ledger "stylometry").accuracy / 100 /
        (if (layerStat ledger "semantic").accuracy / 100 +
            (layerStat ledger "stylometry").accuracy / 100 +
            (layerStat ledger "cross_lang").accuracy / 100 = 0 then 1
         else (layerStat ledger "semantic").accuracy / 100 +
            (layerStat ledger "stylometry").accuracy / 100 +
            (layerStat ledger "cross_lang").accuracy / 100)))
      (clampWeight_le _)
      (le_clampWeight ((layerStat ledger "cross_lang").accuracy / 100 /
        (if (layerStat ledger "semantic").accuracy / 100 +
            (layerStat ledger "stylometry").accuracy / 100 +
            (layerStat ledger "cross_lang").accuracy / 100 = 0 then 1
         else (layerStat ledger "semantic").accuracy / 100 +
            (layerStat ledger "stylometry").accuracy / 100 +
            (layerStat ledger "cross_lang").accuracy / 100)))
      (clampWeight_le _)
  exact ⟨_, rfl, hsum, h1, h2, h3, h4, h5, h6⟩

lemma layerStat_fpSem_semantic : layerStat fpSemLedger "semantic" =
    { false_positives := 10, confirmed := 0, total := 10, accuracy := 0 } := by
  have h1 : countLayerType fpSemLedger "false_positive" "semantic" = 10 := by decide
  have h2 : countLayerType fpSemLedger "confirmed" "semantic" = 0 := by decide
  simp only [layerStat, h1, h2]
  norm_num [pyRound, roundHalfEven]

lemma layerStat_fpSem_stylometry : layerStat fpSemLedger "stylometry" =
    { false_positives := 0, confirmed := 0, total := 0, accuracy := 50 } := by
  have h1 : countLayerType fpSemLedger "false_positive" "stylometry" = 0 := by decide
  have h2 : countLayerType fpSemLedger "confirmed" "stylometry" = 0 := by decide
  simp only [layerStat, h1, h2]
  norm_num [pyRound, roundHalfEven]

lemma layerStat_fpSem_cross_lang : layerStat fpSemLedger "cross_lang" =
    { false_positives := 0, confirmed := 0, total := 0, accuracy := 50 } := by
  have h1 : countLayerType fpSemLedger "false_positive" "cross_lang" = 0 := by decide
  have h2 : countLayerType fpSemLedger "confirmed" "cross_lang" = 0 := by decide
  simp only [layerStat, h1, h2]
  norm_num [pyRound, roundHalfEven]

lemma rebalance_fpSem (w : LayerWeights) :
    (rebalanceLayerWeights fpSemLedger (some w)).2 =
      some { w with
        semantic_weight := 1/11
        stylometry_weight := 5/11
        cross_lang_weight := 5/11 } := by
  simp only [rebalanceLayerWeights, layerStat_fpSem_semantic,
    layerStat_fpSem_stylometry, layerStat_fpSem_cross_lang]
  norm_num [clampWeight]

/-- C2 counterexample: a ledger of 10 false-positive entries tagged to the
semantic layer makes the persisted semantic weight 1/11, which is below the
claimed floor 0.10. -/
theorem rebalance_weight_floor_cex :
    ((rebalanceLayerWeights fpSemLedger (some defaultWeights)).2.map
      LayerWeights.semantic_weight) = some (1/11) ∧
    ¬ ((1:ℚ)/10 ≤ 1/11) := by
  rw [rebalance_fpSem defaultWeights]
  norm_num

lemma calcAT_fpSem_state :
    calculateAdaptiveThreshold fpSemLedger (some defaultWeights) =
      (54, .learning 10 100 14 54 (rangeStats fpSemLedger),
       some { defaultWeights with
         threshold_adjustment := 14
         total_feedback_processed := 10 }) := by
  have hfp : countType fpSemLedger "false_positive" = 10 := by decide
  have hlen : fpSemLedger.length = 10 := by decide
  simp only [calculateAdaptiveThreshold, hfp, hlen]
  norm_num [defaultWeights, pyRound, roundHalfEven]

lemma retrain_fpSem_state :
    (triggerRetrain fpSemLedger (some defaultWeights)).2 =
      some { semantic_weight := 1/11
             stylometry_weight := 5/11
             cross_lang_weight := 5/11
             base_threshold := 40
             threshold_adjustment := 14
             total_feedback_processed := 10 } := by
  unfold triggerRetrain
  rw [calcAT_fpSem_state]
  rw [rebalance_fpSem]
  rfl

/-- C3 counterexample: on the claimed scenario (10 false-positive entries,
score 80, layer semantic, default weights) the persisted threshold
adjustment is 14, not the claimed 15 (since (1.0 - 0.3) * 20 = 14 needs no
clamping), and the persisted semantic weight is 1/11, not the claimed
floor 0.10. -/
theorem retrain_scenario_cex :
    ((triggerRetrain fpSemLedger (some defaultWeights)).2.map
        LayerWeights.threshold_adjustment) = some 14 ∧ (14:ℚ) ≠ 15 ∧
    ((triggerRetrain fpSemLedger (some defaultWeights)).2.map
        LayerWeights.semantic_weight) = some (1/11) ∧ ((1:ℚ)/11) ≠ 1/10 := by
  rw [retrain_fpSem_state]
  norm_num

/-- C3 (amended): on that scenario, running threshold calibration and
weight rebalancing yields threshold_adjustment = +14 (unclamped, since
(1.0 - 0.3) * 20 = 14 is inside [-15, 15]), semantic_weight = 1/11 (the
0.10 floor re-normalized by the clamped sum 1.1),
stylometry_weight = cross_lang_weight = 5/11, and effective threshold 54. -/
theorem retrain_scenario_amended :
    (triggerRetrain fpSemLedger (some defaultWeights)).2 =
      some { semantic_weight := 1/11
             stylometry_weight := 5/11
             cross_lang_weight := 5/11
             base_threshold := 40
             threshold_adjustment := 14
             total_feedback_processed := 10 } ∧
    (triggerRetrain fpSemLedger (some defaultWeights)).1.1 = 54 := by
  refine ⟨retrain_fpSem_state, ?_⟩
  unfold triggerRetrain
  rw [calcAT_fpSem_state]

/-- C4: `calculate_adaptive_threshold` returns the unmodified base
threshold with learning inactive and the number of entries still needed
when the ledger holds fewer than 10 entries; otherwise it persists
adjustment = (global fp rate - 0.30) * 20 clamped to [-15, 15] together
with the total feedback count, and returns
effective_threshold = base_threshold + adjustment exactly. -/
theorem adaptive_threshold_spec (ledger : List Feedback) (w : LayerWeights) :
    (ledger.length < 10 →
      calculateAdaptiveThreshold ledger (some w) =
        (w.base_threshold, .notLearning (10 - (ledger.length : ℤ)), some w)) ∧
    (10 ≤ ledger.length →
      (calculateAdaptiveThreshold ledger (some w)).2.2 =
        some { w with
          threshold_adjustment := max (-15) (min 15
            (((countType ledger "false_positive" : ℚ) / (ledger.length : ℚ)
              - 3/10) * 20))
          total_feedback_processed := ledger.length } ∧
      (calculateAdaptiveThreshold ledger (some w)).1 =
        w.base_threshold + max (-15) (min 15
          (((countType ledger "false_positive" : ℚ) / (ledger.length : ℚ)
            - 3/10) * 20)) ∧
      (calculateAdaptiveThreshold ledger (some w)).2.1.learningActive = true) := by
  constructor
  · intro h
    simp only [calculateAdaptiveThreshold, if_pos h]
  · intro h
    have hnot : ¬ ledger.length < 10 := not_lt.mpr h
    have hpos : 0 < ledger.length := by omega
    refine ⟨?_, ?_, ?_⟩ <;>
      simp only [calculateAdaptiveThreshold, if_neg hnot, if_pos hpos,
        ThresholdAnalytics.learningActive]

/-- C4 witness: both branches instantiated — the empty ledger returns the
untouched default state, and a concrete 10-entry ledger returns
base + adjustment. -/
theorem adaptive_threshold_spec_witness :
    calculateAdaptiveThreshold [] (some defaultWeights) =
      (defaultWeights.base_threshold, .notLearning (10 - ((0:ℕ) : ℤ)),
       some defaultWeights) ∧
    (calculateAdaptiveThreshold fpSemLedger (some defaultWeights)).1 =
      defaultWeights.base_threshold + max (-15) (min 15
        (((countType fpSemLedger "false_positive" : ℚ) /
          (fpSemLedger.length : ℚ) - 3/10) * 20)) := by
  constructor
  · exact (adaptive_threshold_spec [] defaultWeights).1 (by norm_num)
  · exact ((adaptive_threshold_spec fpSemLedger defaultWeights).2 (by decide)).2.1

/-- C7: for any feedback_type other than false_positive/confirmed,
`submit_feedback` fails with an invalid-argument error and is never
partially applied (state unchanged, nothing appended); for a valid
feedback_type exactly one new entry is appended. -/
theorem submit_feedback_validation (sha256 : String → String)
    (users : List PyUser) (st : FMState) (doc_id submitted_text : String)
    (match_score : ℚ) (feedback_type : String) (username : Option String) :
    (feedback_type ≠ "false_positive" ∧ feedback_type ≠ "confirmed" →
      (submitFeedback sha256 users st doc_id submitted_text match_score
        feedback_type username).1 = st ∧
      ∃ e, (submitFeedback sha256 users st doc_id submitted_text match_score
        feedback_type username).2 = .error e) ∧
    (feedback_type = "false_positive" ∨ feedback_type = "confirmed" →
      ∃ fb r,
        (submitFeedback sha256 users st doc_id submitted_text match_score
          feedback_type username).1.ledger = st.ledger ++ [fb] ∧
        (submitFeedback sha256 users st doc_id submitted_text match_score
          feedback_type username).2 = .ok r) := by
  constructor
  · intro h
    unfold submitFeedback
    rw [if_pos h]
    exact ⟨rfl, _, rfl⟩
  · intro h
    have hne : ¬ (feedback_type ≠ "false_positive" ∧ feedback_type ≠ "confirmed") := by
      rcases h with h | h <;> simp [h]
    unfold submitFeedback
    rw [if_neg hne]
    exact ⟨_, _, rfl, rfl⟩

/-- C7 witness: a rejected submission with feedback_type "bogus" leaves
the state untouched, and a "confirmed" submission appends one entry. -/
theorem submit_feedback_validation_witness :
    (submitFeedback (fun _ => "h") [] ⟨0, []⟩ "doc1" "text" 50 "bogus" none).1 =
      ⟨0, []⟩ ∧
    (∃ e, (submitFeedback (fun _ => "h") [] ⟨0, []⟩ "doc1" "text" 50 "bogus"
      none).2 = .error e) ∧
    (∃ fb r,
      (submitFeedback (fun _ => "h") [] ⟨0, []⟩ "doc1" "text" 50 "confirmed"
        none).1.ledger = [] ++ [fb] ∧
      (submitFeedback (fun _ => "h") [] ⟨0, []⟩ "doc1" "text" 50 "confirmed"
        none).2 = .ok r) := by
  refine ⟨?_, ?_, ?_⟩
  · exact ((submit_feedback_validation (fun _ => "h") [] ⟨0, []⟩ "doc1" "text"
      50 "bogus" none).1 (by simp)).1
  · exact ((submit_feedback_validation (fun _ => "h") [] ⟨0, []⟩ "doc1" "text"
      50 "bogus" none).1 (by simp)).2
  · exact (submit_feedback_validation (fun _ => "h") [] ⟨0, []⟩ "doc1" "text"
      50 "confirmed" none).2 (Or.inr rfl)

/-- C6 (code bug witness-theorem): `FeedbackManager.submit_feedback` has no
severity/detection_layer/confidence_override/notes parameters, so every row
it creates carries the column defaults: detection_layer NULL, severity 50,
confidence_override NULL, notes NULL — a submitted detection_layer can never
be persisted (the `/feedback` endpoint in main.py passes these keyword
arguments anyway, which raises TypeError at runtime). -/
theorem submit_feedback_drops_fine_grained_fields (sha256 : String → String)
    (users : List PyUser) (st : FMState) (doc_id submitted_text : String)
    (match_score : ℚ) (feedback_type : String) (username : Option String)
    (h : feedback_type = "false_positive" ∨ feedback_type = "confirmed") :
    ∃ fb r,
      (submitFeedback sha256 users st doc_id submitted_text match_score
        feedback_type username).1.ledger = st.ledger ++ [fb] ∧
      (submitFeedback sha256 users st doc_id submitted_text match_score
        feedback_type username).2 = .ok r ∧
      fb.detection_layer = none ∧ fb.severity = 50 ∧
      fb.confidence_override = none ∧ fb.notes = none := by
  have hne : ¬ (feedback_type ≠ "false_positive" ∧ feedback_type ≠ "confirmed") := by
    rcases h with h | h <;> simp [h]
  unfold submitFeedback
  rw [if_neg hne]
  exact ⟨_, _, rfl, rfl, rfl, rfl, rfl, rfl⟩

/-- C6 witness: a concrete valid submission produces a row whose
detection_layer is NULL and severity is the default 50. -/
theorem submit_feedback_drops_fine_grained_fields_witness :
    ∃ fb r,
      (submitFeedback (fun _ => "h") [] ⟨0, []⟩ "doc1" "text" 80
        "false_positive" none).1.ledger = [] ++ [fb] ∧
      (submitFeedback (fun _ => "h") [] ⟨0, []⟩ "doc1" "text" 80
        "false_positive" none).2 = .ok r ∧
      fb.detection_layer = none ∧ fb.severity = 50 ∧
      fb.confidence_override = none ∧ fb.notes = none :=
  submit_feedback_drops_fine_grained_fields (fun _ => "h") [] ⟨0, []⟩ "doc1"
    "text" 80 "false_positive" none (Or.inl rfl)

/-- C10: when the excluded email matches no stored user, the excluded id
resolves to -1, so nothing is excluded: `detect_cross_user` reports
total_documents_checked equal to the total number of stored user documents
and compares the query against every one of them. -/
theorem crossUser_unknown_email_checks_all {E : Type} (cosSim : E → E → ℚ)
    (encode : String → E) (detectLang : String → LangInfo)
    (users : List PyUser) (userDocs : List (UserDocument E))
    (text excludeEmail : String) (threshold : ℚ)
    (hmail : ∀ u ∈ users, u.email ≠ excludeEmail)
    (hid : ∀ d ∈ userDocs, 1 ≤ d.user_id) :
    (detectCrossUser cosSim encode detectLang users userDocs text excludeEmail
      threshold).total_documents_checked = userDocs.length ∧
    ∀ m, m ∈ (detectCrossUser cosSim encode detectLang users userDocs text
        excludeEmail threshold).«matches» ↔
      ∃ d, d ∈ userDocs ∧
        threshold < userDocScore cosSim encode (encode text) d ∧
        m = mkCrossUserMatch users (detectLang text) d
          (userDocScore cosSim encode (encode text) d) := by
  have hfind : users.find? (fun u => u.email == excludeEmail) = none := by
    rw [List.find?_eq_none]
    intro u hu
    simpa using hmail u hu
  have hfilter : userDocs.filter (fun d =>
      d.user_id != (match users.find? (fun u => u.email == excludeEmail) with
        | some u => u.id
        | none => -1)) = userDocs := by
    rw [hfind]
    apply List.filter_eq_self.mpr
    intro d hd
    have := hid d hd
    simp only [bne_iff_ne, ne_eq]
    omega
  constructor
  · unfold detectCrossUser
    rw [hfind] at hfilter ⊢
    by_cases h : userDocs.isEmpty
    · rw [if_pos (by rw [hfilter]; exact h)]
      simp [List.isEmpty_iff.mp h]
    · rw [if_neg (by rw [hfilter]; exact h)]
      simp only [hfilter]
  · intro m
    rw [mem_detectCrossUser_matches, hfilter]

/-- C10 witness: a store with one user and one document, queried with an
email that matches no user. -/
theorem crossUser_unknown_email_checks_all_witness :
    (detectCrossUser halfSim zeroEnc enDetect [userA] [userDocA] "q"
      "b@example.com" (2/5)).total_documents_checked = [userDocA].length ∧
    ∀ m, m ∈ (detectCrossUser halfSim zeroEnc enDetect [userA] [userDocA] "q"
        "b@example.com" (2/5)).«matches» ↔
      ∃ d, d ∈ [userDocA] ∧
        (2:ℚ)/5 < userDocScore halfSim zeroEnc (zeroEnc "q") d ∧
        m = mkCrossUserMatch [userA] (enDetect "q") d
          (userDocScore halfSim zeroEnc (zeroEnc "q") d) :=
  crossUser_unknown_email_checks_all halfSim zeroEnc enDetect [userA] [userDocA]
    "q" "b@example.com" (2/5) (by decide) (by decide)

lemma detect_short_matches :
    (detect halfSim zeroEnc enDetect [refShort] "q" (2/5)).«matches» =
      [mShort] := by
  have h : ((2:ℚ)/5 < 1/2) := by norm_num
  simp only [detect, refShort, halfSim, zeroEnc, enDetect, List.filter_cons,
    List.filter_nil, h, if_true, List.isEmpty_cons,
    Bool.false_eq_true, if_false, List.map_cons, List.map_nil,
    sortByScoreDesc, List.insertionSort, List.orderedInsert]
  simp only [mkMatchRecord, mShort, enLang, List.cons.injEq, and_true,
    MatchRecord.mk.injEq]
  and_intros
  · norm_num [pyRound, roundHalfEven]
  · norm_num [pyRound, roundHalfEven]
  · decide
  · trivial
  · decide

/-- C9 counterexample: in corpus mode the snippet always appends an
ellipsis — a 10-character document yields snippet "short text...", not the
claimed unchanged text for sources of 200 characters or fewer. -/
theorem corpus_snippet_cex :
    ((detect halfSim zeroEnc enDetect [refShort] "q" (2/5)).«matches».map
      (fun m => m.snippet)) = ["short text..."] ∧
    snippetSpec "short text" = "short text" ∧
    "short text..." ≠ "short text" := by
  rw [detect_short_matches]
  refine ⟨rfl, ?_, ?_⟩ <;> decide

/-- C9 (amended): every corpus-mode match carries
snippet = text[:200] + "..." with the ellipsis appended unconditionally,
while every cross-user match appends the ellipsis only when the text
exceeds 200 characters (and otherwise carries the text unchanged). -/
theorem snippet_shapes {E : Type} (cosSim : E → E → ℚ) (encode : String → E)
    (detectLang : String → LangInfo) (store : List (RefEntry E))
    (users : List PyUser) (userDocs : List (UserDocument E))
    (text excludeEmail : String) (threshold : ℚ) :
    (∀ m ∈ (detect cosSim encode detectLang store text threshold).«matches»,
      ∃ d, d ∈ store ∧ m.doc_id = d.id ∧
        m.snippet = d.text.take 200 ++ "...") ∧
    (∀ m ∈ (detectCrossUser cosSim encode detectLang users userDocs text
        excludeEmail threshold).«matches»,
      ∃ d, d ∈ userDocs ∧ m.doc_id = d.doc_id ∧
        m.snippet = if 200 < d.text.length then d.text.take 200 ++ "..."
          else d.text) := by
  constructor
  · intro m hm
    rcases (mem_detect_matches cosSim encode detectLang store text threshold
      m).mp hm with ⟨d, hd, _, rfl⟩
    exact ⟨d, hd, rfl, rfl⟩
  · intro m hm
    rcases (mem_detectCrossUser_matches cosSim encode detectLang users userDocs
      text excludeEmail threshold m).mp hm with ⟨d, hd, _, rfl⟩
    exact ⟨d, List.mem_of_mem_filter hd, rfl, rfl⟩

/-- C9 witness: the corpus-mode snippet shape applied to the concrete
match produced by the one-document corpus. -/
theorem snippet_shapes_witness :
    ∃ d, d ∈ [refShort] ∧ mShort.doc_id = d.id ∧
      mShort.snippet = d.text.take 200 ++ "..." :=
  (snippet_shapes halfSim zeroEnc enDetect [refShort] [] [] "q" "x" (2/5)).1
    mShort (by rw [detect_short_matches]; exact List.mem_singleton.mpr rfl)

/-- C1 counterexample: after a successful feedback submission, two
detection runs under calibration states with threshold_adjustment 0
(effective 40) and 15 (effective 55), on a corpus whose only candidate
scores 50 — strictly between the two effective thresholds — return the
same match set: the `/detect` endpoint always calls `detect` with the
default fractional threshold 0.4 and never reads the calibration row. -/
theorem calibration_threshold_cex :
    (∃ r, (submitFeedback (fun _ => "h") [] ⟨0, []⟩ "doc1" "text" 50 "confirmed"
      none).2 = .ok r) ∧
    defaultWeights.base_threshold + defaultWeights.threshold_adjustment < 50 ∧
    (50:ℚ) < calibHigh.base_threshold + calibHigh.threshold_adjustment ∧
    ((detectEndpoint halfSim zeroEnc enDetect (some defaultWeights) [refShort]
      "q").«matches».map MatchRecord.score) = [50] ∧
    ((detectEndpoint halfSim zeroEnc enDetect (some defaultWeights) [refShort]
      "q").«matches».map MatchRecord.doc_id) =
      ((detectEndpoint halfSim zeroEnc enDetect (some calibHigh) [refShort]
        "q").«matches».map MatchRecord.doc_id) := by
  refine ⟨⟨_, rfl⟩, ?_, ?_, ?_, rfl⟩
  · norm_num [defaultWeights]
  · norm_num [calibHigh, defaultWeights]
  · show ((detect halfSim zeroEnc enDetect [refShort] "q" (2/5)).«matches».map
      MatchRecord.score) = [50]
    rw [detect_short_matches]
    rfl

/-- C1 (amended): detection after a successful feedback submission
filters with the constant default threshold 0.4, not the calibration
store's effective threshold: its match set is exactly the candidates with
similarity above 0.4, and the whole detection result is identical under
any two calibration states. -/
theorem detect_ignores_calibration {E : Type} (cosSim : E → E → ℚ)
    (encode : String → E) (detectLang : String → LangInfo)
    (c1 c2 : Option LayerWeights) (store : List (RefEntry E)) (text : String)
    (sha256 : String → String) (users : List PyUser) (st : FMState)
    (doc_id submitted_text : String) (match_score : ℚ) (feedback_type : String)
    (username : Option String)
    (hok : ∃ r, (submitFeedback sha256 users st doc_id submitted_text
      match_score feedback_type username).2 = .ok r) :
    (∀ m, m ∈ (detectEndpoint cosSim encode detectLang c1 store
        text).«matches» ↔
      ∃ d, d ∈ store ∧ 2/5 < cosSim (encode text) d.embedding ∧
        m = mkMatchRecord (detectLang text) d
          (cosSim (encode text) d.embedding)) ∧
    detectEndpoint cosSim encode detectLang c1 store text =
      detectEndpoint cosSim encode detectLang c2 store text := by
  exact ⟨fun m => mem_detect_matches cosSim encode detectLang store text (2/5) m,
    rfl⟩

/-- C1 amended witness: the characterization and independence
instantiated at the concrete corpus and the two calibration states of the
counterexample, after a concrete successful submission. -/
theorem detect_ignores_calibration_witness :
    (∀ m, m ∈ (detectEndpoint halfSim zeroEnc enDetect (some defaultWeights)
        [refShort] "q").«matches» ↔
      ∃ d, d ∈ [refShort] ∧ (2:ℚ)/5 < halfSim (zeroEnc "q") d.embedding ∧
        m = mkMatchRecord (enDetect "q") d (halfSim (zeroEnc "q") d.embedding)) ∧
    detectEndpoint halfSim zeroEnc enDetect (some defaultWeights) [refShort]
        "q" =
      detectEndpoint halfSim zeroEnc enDetect (some calibHigh) [refShort] "q" :=
  detect_ignores_calibration halfSim zeroEnc enDetect (some defaultWeights)
    (some calibHigh) [refShort] "q" (fun _ => "h") [] ⟨0, []⟩ "doc1" "text" 50
    "confirmed" none ⟨_, rfl⟩

lemma qualBucket_false {st : RangeStat}
    (h : ¬ (st.fp_rate < 30 ∧ 0 < st.confirmed)) :
    (decide (st.fp_rate < 30) && decide (0 < st.confirmed)) = false := by
  rcases not_and_or.mp h with h | h <;> simp [h]

lemma optimalThreshold_first (s0 s1 s2 s3 : RangeStat)
    (h0 : s0.low = 0) (h1 : s1.low = 30) (h2 : s2.low = 50) (h3 : s3.low = 70) :
    (∀ st ∈ [s0, s1, s2, s3], st.fp_rate < 30 → 0 < st.confirmed →
      optimalThreshold [s0, s1, s2, s3] ≤ (st.low : ℚ)) ∧
    ((∃ st, st ∈ [s0, s1, s2, s3] ∧ st.fp_rate < 30 ∧ 0 < st.confirmed) →
      ∃ st, st ∈ [s0, s1, s2, s3] ∧ st.fp_rate < 30 ∧ 0 < st.confirmed ∧
        optimalThreshold [s0, s1, s2, s3] = (st.low : ℚ)) := by
  unfold optimalThreshold
  by_cases q0 : s0.fp_rate < 30 ∧ 0 < s0.confirmed
  · rw [List.find?_cons_of_pos _ (by simp [q0.1, q0.2])]
    constructor
    · intro st _ _ _
      dsimp only
      rw [h0]
      exact_mod_cast Nat.zero_le _
    · intro _
      exact ⟨s0, by simp, q0.1, q0.2, rfl⟩
  · rw [List.find?_cons_of_neg _ (by simp [qualBucket_false q0])]
    by_cases q1 : s1.fp_rate < 30 ∧ 0 < s1.confirmed
    · rw [List.find?_cons_of_pos _ (by simp [q1.1, q1.2])]
      constructor
      · intro st hst ha hb
        dsimp only
        rcases List.mem_cons.mp hst with rfl | hst
        · exact absurd ⟨ha, hb⟩ q0
        rcases List.mem_cons.mp hst with rfl | hst
        · exact le_rfl
        rcases List.mem_cons.mp hst with rfl | hst
        · rw [h1, h2]; norm_num
        rcases List.mem_cons.mp hst with rfl | hst
        · rw [h1, h3]; norm_num
        · simp at hst
      · intro _
        exact ⟨s1, by simp, q1.1, q1.2, rfl⟩
    · rw [List.find?_cons_of_neg _ (by simp [qualBucket_false q1])]
      by_cases q2 : s2.fp_rate < 30 ∧ 0 < s2.confirmed
      · rw [List.find?_cons_of_pos _ (by simp [q2.1, q2.2])]
        constructor
        · intro st hst ha hb
          dsimp only
          rcases List.mem_cons.mp hst with rfl | hst
          · exact absurd ⟨ha, hb⟩ q0
          rcases List.mem_cons.mp hst with rfl | hst
          · exact absurd ⟨ha, hb⟩ q1
          rcases List.mem_cons.mp hst with rfl | hst
          · exact le_rfl
          rcases List.mem_cons.mp hst with rfl | hst
          · rw [h2, h3]; norm_num
          · simp at hst
        · intro _
          exact ⟨s2, by simp, q2.1, q2.2, rfl⟩
      · rw [List.find?_cons_of_neg _ (by simp [qualBucket_false q2])]
        by_cases q3 : s3.fp_rate < 30 ∧ 0 < s3.confirmed
        · rw [List.find?_cons_of_pos _ (by simp [q3.1, q3.2])]
          constructor
          · intro st hst ha hb
            dsimp only
            rcases List.mem_cons.mp hst with rfl | hst
            · exact absurd ⟨ha, hb⟩ q0
            rcases List.mem_cons.mp hst with rfl | hst
            · exact absurd ⟨ha, hb⟩ q1
            rcases List.mem_cons.mp hst with rfl | hst
            · exact absurd ⟨ha, hb⟩ q2
            rcases List.mem_cons.mp hst with rfl | hst
            · exact le_rfl
            · simp at hst
          · intro _
            exact ⟨s3, by simp, q3.1, q3.2, rfl⟩
        · rw [show ([s3].find? fun s =>
              decide (s.fp_rate < 30) && decide (0 < s.confirmed)) = none by
            simp [List.find?, qualBucket_false q3]]
          constructor
          · intro st hst ha hb
            rcases List.mem_cons.mp hst with rfl | hst
            · exact absurd ⟨ha, hb⟩ q0
            rcases List.mem_cons.mp hst with rfl | hst
            · exact absurd ⟨ha, hb⟩ q1
            rcases List.mem_cons.mp hst with rfl | hst
            · exact absurd ⟨ha, hb⟩ q2
            rcases List.mem_cons.mp hst with rfl | hst
            · exact absurd ⟨ha, hb⟩ q3
            · simp at hst
          · rintro ⟨st, hst, ha, hb⟩
            rcases List.mem_cons.mp hst with rfl | hst
            · exact absurd ⟨ha, hb⟩ q0
            rcases List.mem_cons.mp hst with rfl | hst
            · exact absurd ⟨ha, hb⟩ q1
            rcases List.mem_cons.mp hst with rfl | hst
            · exact absurd ⟨ha, hb⟩ q2
            rcases List.mem_cons.mp hst with rfl | hst
            · exact absurd ⟨ha, hb⟩ q3
            · simp at hst

/-- C5 (amended): with at least 10 entries the analytics carry the
per-bucket statistics for buckets [0,30), [30,50), [50,70), [70,100) — so
every score in 0..99 falls in exactly one bucket while a score of 100
falls in none; each bucket reports fp / (fp + confirmed) (0 when empty,
stored as a percentage rounded to one decimal); the internal
optimal-threshold computation picks the lower bound of the lowest-scoring
bucket whose rounded rate is below 30 and that has a confirmed entry —
but that value is dropped: the returned analytics record has no
optimal_threshold field. -/
theorem score_bucket_analysis_amended (ledger : List Feedback)
    (w : LayerWeights) (h10 : 10 ≤ ledger.length) :
    ((calculateAdaptiveThreshold ledger (some w)).2.1.rangeAnalysis =
      some (rangeStats ledger)) ∧
    (∀ s : ℤ, 0 ≤ s → s < 100 →
      (scoreRanges.countP (fun r =>
        decide ((r.1 : ℤ) ≤ s) && decide (s < (r.2 : ℤ)))) = 1) ∧
    ((scoreRanges.countP (fun r =>
        decide ((r.1 : ℤ) ≤ (100:ℤ)) && decide ((100:ℤ) < (r.2 : ℤ)))) = 0) ∧
    (∀ st ∈ rangeStats ledger,
      st.false_positives = countInRange ledger "false_positive" st.low st.high ∧
      st.confirmed = countInRange ledger "confirmed" st.low st.high ∧
      st.fp_rate = pyRound ((if 0 < st.false_positives + st.confirmed then
          (st.false_positives : ℚ) /
            ((st.false_positives + st.confirmed : ℕ) : ℚ)
          else 0) * 100) 1) ∧
    (∀ st ∈ rangeStats ledger, st.fp_rate < 30 → 0 < st.confirmed →
      optimalThreshold (rangeStats ledger) ≤ (st.low : ℚ)) ∧
    ((∃ st, st ∈ rangeStats ledger ∧ st.fp_rate < 30 ∧ 0 < st.confirmed) →
      ∃ st, st ∈ rangeStats ledger ∧ st.fp_rate < 30 ∧ 0 < st.confirmed ∧
        optimalThreshold (rangeStats ledger) = (st.low : ℚ)) := by
  have hnot : ¬ ledger.length < 10 := not_lt.mpr h10
  have hsplit : rangeStats ledger =
      [(rangeStats ledger).get ⟨0, by simp [rangeStats, scoreRanges]⟩,
       (rangeStats ledger).get ⟨1, by simp [rangeStats, scoreRanges]⟩,
       (rangeStats ledger).get ⟨2, by simp [rangeStats, scoreRanges]⟩,
       (rangeStats ledger).get ⟨3, by simp [rangeStats, scoreRanges]⟩] := rfl
  refine ⟨?_, ?_, by decide, ?_, ?_⟩
  · simp only [calculateAdaptiveThreshold, if_neg hnot,
      ThresholdAnalytics.rangeAnalysis]
  · intro s hs1 hs2
    simp only [scoreRanges, List.countP_cons, List.countP_nil,
      Bool.and_eq_true, decide_eq_true_eq]
    norm_num
    split_ifs <;> omega
  · intro st hst
    rw [hsplit] at hst
    rcases List.mem_cons.mp hst with rfl | hst
    · exact ⟨rfl, rfl, rfl⟩
    rcases List.mem_cons.mp hst with rfl | hst
    · exact ⟨rfl, rfl, rfl⟩
    rcases List.mem_cons.mp hst with rfl | hst
    · exact ⟨rfl, rfl, rfl⟩
    rcases List.mem_cons.mp hst with rfl | hst
    · exact ⟨rfl, rfl, rfl⟩
    · simp at hst
  · rw [hsplit]
    exact optimalThreshold_first _ _ _ _ rfl rfl rfl rfl

/-- C5 witness: the analytics linkage and the single-bucket property of
score 50 on a concrete 10-entry ledger. -/
theorem score_bucket_analysis_amended_witness :
    ((calculateAdaptiveThreshold fpSemLedger
        (some defaultWeights)).2.1.rangeAnalysis =
      some (rangeStats fpSemLedger)) ∧
    (scoreRanges.countP (fun r =>
      decide ((r.1 : ℤ) ≤ (50:ℤ)) && decide ((50:ℤ) < (r.2 : ℤ)))) = 1 :=
  ⟨(score_bucket_analysis_amended fpSemLedger defaultWeights (by decide)).1,
   (score_bucket_analysis_amended fpSemLedger defaultWeights
     (by decide)).2.1 50 (by norm_num) (by norm_num)⟩

/-- C5 counterexample: a 10-entry ledger whose scores all lie in 0..100
but whose bucket population sums to 9 — the entry with score 100 is
counted in no bucket, refuting the claimed partition of [0,100]. -/
theorem score_buckets_cex :
    (∀ f ∈ conf100Ledger, (0:ℤ) ≤ f.match_score ∧ f.match_score ≤ 100) ∧
    conf100Ledger.length = 10 ∧
    ((rangeStats conf100Ledger).map
      (fun st => st.false_positives + st.confirmed)).sum = 9 := by
  refine ⟨by decide, by decide, ?_⟩
  have h1 : countInRange conf100Ledger "false_positive" 0 30 = 0 := by decide
  have h2 : countInRange conf100Ledger "confirmed" 0 30 = 0 := by decide
  have h3 : countInRange conf100Ledger "false_positive" 30 50 = 0 := by decide
  have h4 : countInRange conf100Ledger "confirmed" 30 50 = 0 := by decide
  have h5 : countInRange conf100Ledger "false_positive" 50 70 = 0 := by decide
  have h6 : countInRange conf100Ledger "confirmed" 50 70 = 9 := by decide
  have h7 : countInRange conf100Ledger "false_positive" 70 100 = 0 := by decide
  have h8 : countInRange conf100Ledger "confirmed" 70 100 = 0 := by decide
  simp only [rangeStats, scoreRanges, List.map_cons, List.map_nil,
    h1, h2, h3, h4, h5, h6, h7, h8]
  norm_num
